import Mathlib

/-!
Verification of the granges core against its specification.

The embedding models the two algorithmic pieces of the repository:
`src/src/data/operations.rs` (the aggregation engine with its median
sub-routine) and `src/src/io/parsers/tsv.rs` (gzip detection, the generic
missing-value-aware field decoder, and the record stream's per-row error
mapping).

Modelling conventions:
* The generic IEEE-float element type `T : Float + Ord + Sum + ...` is
  modelled by `ℚ`, a totally ordered field with exact arithmetic; the spec
  itself excludes incomparable values (NaN) from the domain.
* Rust panics (out-of-bounds indexing, `.unwrap()` on `None`) are modelled
  by an outer `Option` layer: `none` is a panic, `some r` a normal return
  of `r`.
* Byte sources are lists of bytes; the serde deserializer of a field is
  modelled as having produced the field's text, and the element type's
  `FromStr` instance is a `parse : String → Except String α` parameter
  whose `error` carries the rendered parse-failure message.
-/

namespace GRangesV

/-- The (subset of) standard bedtools map operations, from
`src/src/data/operations.rs` (`enum Operation`). -/
inductive Operation where
  | Sum
  | Min
  | Max
  | Mean
  | Median
  | Collapse
  deriving DecidableEq

/-- The tagged result of an aggregation, from `src/src/data/operations.rs`
(`enum OperationResult<T>`); the Rust variant named `String` is called
`Str` here because Lean reserves the name for the string type. -/
inductive OperationResult where
  | Float (x : ℚ)
  | Str (s : String)
  deriving DecidableEq

/-- Model of `F::from(2.0)` in `median`: the num_traits `NumCast`
conversion of the constant `2.0` into the IEEE float element type, which
is `Some(2.0 as F)` for every supported float type (external num_traits
code; over the exact value model the cast is the identity). The `Option`
keeps the `.unwrap()` in `median` visible. -/
def numCast_from_f64 (x : ℚ) : Option ℚ := some x

/-- Model of `T::from(data.len())` in the Mean branch: the num_traits
`ToPrimitive` conversion of a `usize` into the float element type, which
is `Some(len as F)` for every supported float type (external num_traits
code; over the exact value model it is the natural-number coercion). -/
def numCast_from_usize (n : Nat) : Option ℚ := some (n : ℚ)

/-- Embedding of `median` (`src/src/data/operations.rs`, lines 10-19).
`sort_unstable` is modelled by `List.insertionSort (· ≤ ·)`: under the
total antisymmetric order on `ℚ` every correct sort produces the same
list, so the choice of algorithm is immaterial. The result `none` models
a runtime panic: on the empty input the even branch is taken (`0 % 2 ==
0`), `mid = 0`, and `numbers[mid - 1]` is an out-of-bounds access (usize
underflow); a failed `.unwrap()` would also panic. -/
def median (numbers : List ℚ) : Option ℚ :=
  let sorted := List.insertionSort (· ≤ ·) numbers
  let mid := sorted.length / 2
  if sorted.length % 2 == 0 then
    match sorted[mid - 1]?, sorted[mid]?, numCast_from_f64 2 with
    | some a, some b, some two => some ((a + b) / two)
    | _, _, _ => none
  else
    sorted[mid]?

/-- Embedding of `data.iter().cloned().sum()`: the num_traits `Sum`
implementation for floats folds `+` left-to-right starting from zero. -/
def iter_sum (data : List ℚ) : ℚ := data.foldl (· + ·) 0

/-- Embedding of `data.iter().cloned().min()`: `None` on an empty
iterator, otherwise the minimum. -/
def iter_min : List ℚ → Option ℚ
  | [] => none
  | x :: xs => some (xs.foldl min x)

/-- Embedding of `data.iter().cloned().max()`: `None` on an empty
iterator, otherwise the maximum. -/
def iter_max : List ℚ → Option ℚ
  | [] => none
  | x :: xs => some (xs.foldl max x)

/-- Model of the element type's `ToString` (Rust's `Display` for IEEE
floats — standard-library code outside this repository): canonical
shortest decimal rendering without padding; integral values render with
no decimal point, fractional values with the minimal number of digits.
Defined here for rationals with a terminating decimal expansion (the only
values decimal input produces); other denominators fall back to a
`num/den` form, which no theorem below exercises. -/
def float_to_string (q : ℚ) : String :=
  let sign := if q < 0 then "-" else ""
  let n := q.num.natAbs
  let d := q.den
  match (List.range 64).find? (fun k => 10 ^ k % d == 0) with
  | none => sign ++ toString n ++ "/" ++ toString d
  | some k =>
    if k == 0 then
      sign ++ toString n
    else
      let scaled := n * 10 ^ k / d
      let ip := scaled / 10 ^ k
      let fp := scaled % 10 ^ k
      let fs := toString fp
      sign ++ toString ip ++ "." ++ String.mk (List.replicate (k - fs.length) '0') ++ fs

/-- Embedding of `float_compute` (`src/src/data/operations.rs`, lines
38-68). The outer `Option` models panic-freedom: `none` is a runtime
panic (reachable through `median` on an empty slice, or through a failed
`.unwrap()` on a numeric cast), `some r` is a normal return of the Rust
function's `Option<OperationResult>` value `r`. -/
def float_compute (operation : Operation) (data : List ℚ) :
    Option (Option OperationResult) :=
  match operation with
  | Operation.Sum => some (some (OperationResult.Float (iter_sum data)))
  | Operation.Min => some ((iter_min data).map OperationResult.Float)
  | Operation.Max => some ((iter_max data).map OperationResult.Float)
  | Operation.Mean =>
    if data.isEmpty then
      some none
    else
      match numCast_from_usize data.length with
      | some n => some (some (OperationResult.Float (iter_sum data / n)))
      | none => none
  | Operation.Median => (median data).map (fun m => some (OperationResult.Float m))
  | Operation.Collapse =>
    some (some (OperationResult.Str
      (String.intercalate ", " (data.map float_to_string))))

/-- Helper: valid indexing returns the default-access value. -/
theorem getElem?_eq_some_getD (l : List ℚ) (k : Nat) (h : k < l.length) :
    l[k]? = some (l.getD k 0) := by
  induction l generalizing k with
  | nil => simp at h
  | cons x xs ih =>
    cases k with
    | zero => simp
    | succ n =>
      have hn : n < xs.length := by simpa using h
      simpa using ih n hn

/-- Helper: on non-empty input `median` returns the midpoint value of the
ascending sort, with no panic. -/
theorem median_eq_of_ne_nil (data : List ℚ) (h : data ≠ []) :
    median data =
      some (if data.length % 2 = 1 then
              (List.insertionSort (· ≤ ·) data).getD (data.length / 2) 0
            else
              ((List.insertionSort (· ≤ ·) data).getD (data.length / 2 - 1) 0 +
                (List.insertionSort (· ≤ ·) data).getD (data.length / 2) 0) / 2) := by
  have hlen : (List.insertionSort (· ≤ ·) data).length = data.length :=
    (List.perm_insertionSort (· ≤ ·) data).length_eq
  have hpos : 0 < data.length := List.length_pos.mpr h
  by_cases hpar : data.length % 2 = 0
  · have h2 : 2 ≤ data.length := by omega
    have hm1 : data.length / 2 - 1 < (List.insertionSort (· ≤ ·) data).length := by omega
    have hm : data.length / 2 < (List.insertionSort (· ≤ ·) data).length := by omega
    have e1 := getElem?_eq_some_getD (List.insertionSort (· ≤ ·) data)
      (data.length / 2 - 1) hm1
    have e2 := getElem?_eq_some_getD (List.insertionSort (· ≤ ·) data)
      (data.length / 2) hm
    simp only [median, hlen, hpar, numCast_from_f64]
    rw [if_pos (by simp [hpar])]
    rw [e1, e2]
    simp [hpar]
  · have hodd : data.length % 2 = 1 := by omega
    have hm : data.length / 2 < (List.insertionSort (· ≤ ·) data).length := by omega
    have e2 := getElem?_eq_some_getD (List.insertionSort (· ≤ ·) data)
      (data.length / 2) hm
    simp only [median, hlen]
    rw [if_neg (by simp [hodd])]
    rw [e2]
    simp [hodd]

/-- C1: the claim says the Median aggregation of the empty sequence
returns absence without failing at runtime. The code instead panics:
`median []` takes the even-length branch (`0 % 2 == 0`), computes `mid =
0`, and indexes `numbers[mid - 1]`, an out-of-bounds access. The embedded
aggregator hits the panic outcome (`none`) and in particular does not
produce the normal absence return (`some none`). -/
theorem c1_median_empty_panics :
    float_compute Operation.Median [] = none ∧
    float_compute Operation.Median [] ≠ some none := by
  constructor
  · decide
  · decide

/-- C2: on the empty input sequence the aggregator returns the additive
identity `0` for Sum and absence (`None`, modelled `some none`: a normal
return of no value) for each of Min, Max and Mean. -/
theorem c2_empty_group_results :
    float_compute Operation.Sum [] = some (some (OperationResult.Float 0)) ∧
    float_compute Operation.Min [] = some none ∧
    float_compute Operation.Max [] = some none ∧
    float_compute Operation.Mean [] = some none := by
  refine ⟨by decide, by decide, by decide, by decide⟩

/-- C6: on every non-empty input the Median aggregation sorts a private
copy ascending — the returned value is computed from a sorted permutation
of the input — taking the exact middle element for odd length and the
arithmetic average of the two central elements for even length; in
particular Median([1,2,3]) = 2 and Median([1,2,3,4]) = 5/2. -/
theorem c6_median_midpoint :
    (∀ data : List ℚ, data ≠ [] →
      ∃ s : List ℚ, s.Perm data ∧ s.Sorted (· ≤ ·) ∧
        float_compute Operation.Median data =
          some (some (OperationResult.Float
            (if data.length % 2 = 1 then s.getD (data.length / 2) 0
             else (s.getD (data.length / 2 - 1) 0 +
                   s.getD (data.length / 2) 0) / 2)))) ∧
    float_compute Operation.Median [1, 2, 3] =
      some (some (OperationResult.Float 2)) ∧
    float_compute Operation.Median [1, 2, 3, 4] =
      some (some (OperationResult.Float (5 / 2))) := by
  refine ⟨?_, by norm_num [float_compute, median, numCast_from_f64],
    by norm_num [float_compute, median, numCast_from_f64]⟩
  intro data h
  refine ⟨List.insertionSort (· ≤ ·) data, List.perm_insertionSort _ _,
    List.sorted_insertionSort _ _, ?_⟩
  have hmed := median_eq_of_ne_nil data h
  simp [float_compute, hmed]

/-- Witness for C6 at the concrete non-empty input [1, 2, 3]. -/
theorem c6_median_midpoint_witness :
    ∃ s : List ℚ, s.Perm [1, 2, 3] ∧ s.Sorted (· ≤ ·) ∧
      float_compute Operation.Median [1, 2, 3] =
        some (some (OperationResult.Float
          (if ([1, 2, 3] : List ℚ).length % 2 = 1 then
             s.getD (([1, 2, 3] : List ℚ).length / 2) 0
           else
             (s.getD (([1, 2, 3] : List ℚ).length / 2 - 1) 0 +
              s.getD (([1, 2, 3] : List ℚ).length / 2) 0) / 2))) :=
  c6_median_midpoint.1 [1, 2, 3] (by decide)

/-- C8: Collapse renders every value in original (unsorted) input order,
joined with the literal ", " separator, duplicates retained; the empty
input yields the empty string; Collapse([1, 5/2, 1]) = "1, 2.5, 1". -/
theorem c8_collapse_join :
    (∀ data : List ℚ,
      float_compute Operation.Collapse data =
        some (some (OperationResult.Str
          (String.intercalate ", " (data.map float_to_string))))) ∧
    float_compute Operation.Collapse [] =
      some (some (OperationResult.Str "")) ∧
    float_compute Operation.Collapse [1, 5 / 2, 1] =
      some (some (OperationResult.Str "1, 2.5, 1")) := by
  refine ⟨fun data => rfl, by decide, ?_⟩
  have hq : (5 : ℚ) / 2 = Rat.divInt 5 2 := by
    rw [Rat.divInt_eq_div]
    norm_num
  rw [hq]
  decide

/-- C9: for every non-empty input the Sum aggregation equals the left
fold of addition over all elements, and the aggregation is invariant
under every permutation of its input. -/
theorem c9_sum_fold_order_independent :
    (∀ data : List ℚ, data ≠ [] →
      float_compute Operation.Sum data =
        some (some (OperationResult.Float (data.foldl (· + ·) 0)))) ∧
    (∀ data data' : List ℚ, data.Perm data' →
      float_compute Operation.Sum data = float_compute Operation.Sum data') := by
  constructor
  · intro data _
    rfl
  · intro data data' hp
    have hs : iter_sum data = iter_sum data' := by
      unfold iter_sum
      haveI : RightCommutative (fun (b a : ℚ) => b + a) :=
        ⟨fun b a1 a2 => by ring⟩
      exact hp.foldl_eq 0
    simp [float_compute, hs]

/-- Witness for C9 at the input [1, 2] and its permutation [2, 1]. -/
theorem c9_sum_fold_order_independent_witness :
    float_compute Operation.Sum [1, 2] =
      some (some (OperationResult.Float (([1, 2] : List ℚ).foldl (· + ·) 0))) ∧
    float_compute Operation.Sum [1, 2] = float_compute Operation.Sum [2, 1] :=
  ⟨c9_sum_fold_order_independent.1 [1, 2] (by decide),
   c9_sum_fold_order_independent.2 [1, 2] [2, 1] (List.Perm.swap 2 1 [])⟩

/-- C10: the two `.unwrap()`-guarded numeric conversions always succeed
(`F::from(2.0)` in the even-length median branch and
`T::from(data.len())` in the Mean branch both return `Some`), and under
the branches' preconditions the aggregator is total: on every non-empty
input no operation reaches the panic outcome. -/
theorem c10_unwrapped_casts_total :
    (∀ x : ℚ, (numCast_from_f64 x).isSome = true) ∧
    (∀ n : Nat, (numCast_from_usize n).isSome = true) ∧
    (∀ (op : Operation) (data : List ℚ), data ≠ [] →
      float_compute op data ≠ none) := by
  refine ⟨fun x => rfl, fun n => rfl, ?_⟩
  intro op data h
  cases op with
  | Sum => simp [float_compute]
  | Min => simp [float_compute]
  | Max => simp [float_compute]
  | Mean =>
    have he : data.isEmpty = false := by simpa using h
    simp [float_compute, he, numCast_from_usize]
  | Median =>
    have hmed := median_eq_of_ne_nil data h
    simp [float_compute, hmed]
  | Collapse => simp [float_compute]

/-- Witness for C10 at the conversions of 2 and the non-empty input
[1, 2]. -/
theorem c10_unwrapped_casts_total_witness :
    (numCast_from_f64 2).isSome = true ∧
    (numCast_from_usize 2).isSome = true ∧
    float_compute Operation.Median [1, 2] ≠ none :=
  ⟨c10_unwrapped_casts_total.1 2, c10_unwrapped_casts_total.2.1 2,
   c10_unwrapped_casts_total.2.2 Operation.Median [1, 2] (by decide)⟩

/-! TSV parsing: gzip detection, the field decoder, and the record
stream's per-row error mapping (`src/src/io/parsers/tsv.rs`). -/

/-- Model of the csv crate's content-level error kinds met here: a record
whose field count differs from the expected record shape
(`ErrorKind::UnequalLengths`) and a serde field-decode failure
(`ErrorKind::Deserialize`) carrying its message. -/
inductive CsvErrKind where
  | unequalLengths (expectedLen gotLen : Nat)
  | deserializeErr (msg : String)
  deriving DecidableEq

/-- Model of `std::io::Error` as this code produces it: either an
`UnexpectedEof` from `read_exact` on a too-short source, or an
`ErrorKind::Other` value wrapping a content-level csv error (through
`impl From<csv::Error> for std::io::Error`). -/
inductive IoError where
  | unexpectedEof
  | wrappedCsv (k : CsvErrKind)
  deriving DecidableEq

/-- Modelled from the spec: the repository's `GRangesError` enum lives in
`crate::error`, which is not under `src/`; the spec's error taxonomy (§7)
gives it distinct I/O, decode and structural classes, modelled as the
three constructors below. The code under `src/` only ever constructs the
`IOError` class (via the `From` conversions behind `?` and `map_err`). -/
inductive GRangesError where
  | IOError (e : IoError)
  | DecodeError (msg : String)
  | StructuralError (expectedLen gotLen : Nat)
  deriving DecidableEq

/-- Constructor tag of a `GRangesError`: the error kind visible to the
caller without downcasting into any wrapped inner error. -/
def GRangesError.classOf : GRangesError → Nat
  | GRangesError.IOError _ => 0
  | GRangesError.DecodeError _ => 1
  | GRangesError.StructuralError _ _ => 2

/-- Embedding of `is_gzipped_file` (`src/src/io/parsers/tsv.rs`, lines
50-56): `read_exact` into a two-byte buffer — which fails with an
`UnexpectedEof` I/O error when fewer than two bytes are available — then
comparison with the gzip magic `[0x1f, 0x8b]`. The opened byte source is
the file's byte list. -/
def is_gzipped_file (bytes : List Nat) : Except IoError Bool :=
  match bytes with
  | b0 :: b1 :: _ => Except.ok (b0 == 0x1f && b1 == 0x8b)
  | _ => Except.error IoError.unexpectedEof

/-- The uniform byte-readable handle `Box<dyn Read>` built by
`TsvRecordIterator::new`: the raw source, either wrapped in a
`GzDecoder` or passed through unchanged. -/
inductive ByteStream where
  | gzipped (source : List Nat)
  | plain (source : List Nat)
  deriving DecidableEq

/-- Embedding of `TsvRecordIterator::new` (`src/src/io/parsers/tsv.rs`,
lines 62-81) up to the choice of stream: the file is opened, the `?` on
`is_gzipped_file` propagates its I/O error as a `GRangesError` (the
`From<std::io::Error>` conversion lands in the I/O class), and the source
is routed through the decompressor exactly when the magic matched. -/
def TsvRecordIterator.new (bytes : List Nat) : Except GRangesError ByteStream :=
  match is_gzipped_file bytes with
  | Except.error e => Except.error (GRangesError.IOError e)
  | Except.ok true => Except.ok (ByteStream.gzipped bytes)
  | Except.ok false => Except.ok (ByteStream.plain bytes)

/-- Embedding of `deserialize_option_generic` (`src/src/io/parsers/tsv.rs`,
lines 17-34). The serde deserializer is modelled as having already
produced the field's text `s` (the leading `Deserialize::deserialize`
step), and the element type's `FromStr` instance is the `parse`
parameter, whose `error` carries the rendered parse-failure message.
On failure the code returns `DeError::custom(format!("parsing error:
{}", e))`. -/
def deserialize_option_generic {α : Type} (missing_chars : List String)
    (parse : String → Except String α) (s : String) :
    Except String (Option α) :=
  if missing_chars.contains s then
    Except.ok none
  else
    match parse s with
    | Except.ok v => Except.ok (some v)
    | Except.error e => Except.error ("parsing error: " ++ e)

/-- Decimal digit value of a character, when it is one. -/
def digit_val (c : Char) : Option Nat :=
  if c.isDigit then some (c.toNat - 48) else none

/-- Value of a non-empty string of decimal digits. -/
def dec_digits_val (cs : List Char) : Option Nat :=
  if cs.isEmpty then
    none
  else
    cs.foldl (fun acc c => acc.bind (fun n => (digit_val c).map (fun d => n * 10 + d)))
      (some 0)

/-- Model of `<f64 as FromStr>::from_str` (Rust standard-library code
outside this repository), restricted to plain signed decimal literals
with an optional fractional part — the only shapes the theorems below
exercise; every failure renders, as in Rust, the message "invalid float
literal". -/
def f64_from_str (s : String) : Except String ℚ :=
  let parts :=
    match s.data with
    | '-' :: cs => ((-1 : ℚ), cs)
    | '+' :: cs => ((1 : ℚ), cs)
    | cs => ((1 : ℚ), cs)
  match (parts.2).splitOn '.' with
  | [ip] =>
    match dec_digits_val ip with
    | some n => Except.ok (parts.1 * n)
    | none => Except.error "invalid float literal"
  | [ip, fp] =>
    match dec_digits_val ip, dec_digits_val fp with
    | some n, some f =>
      Except.ok (parts.1 * ((n : ℚ) + (f : ℚ) / (10 ^ fp.length : Nat)))
    | _, _ => Except.error "invalid float literal"
  | _ => Except.error "invalid float literal"

/-- Model of the csv reader's pull of one record for a non-flexible
reader (`ReaderBuilder` defaults, tab delimiter, no headers): a record
whose field count differs from the expected record shape yields
`UnequalLengths`; otherwise serde deserialization of the row runs and a
failure yields a `Deserialize` error carrying the custom message. -/
def csv_read_row {α : Type} (expected : Nat)
    (decodeRow : List String → Except String α) (row : List String) :
    Except CsvErrKind α :=
  if row.length == expected then
    match decodeRow row with
    | Except.ok v => Except.ok v
    | Except.error m => Except.error (CsvErrKind.deserializeErr m)
  else
    Except.error (CsvErrKind.unequalLengths expected row.length)

/-- Embedding of `From<csv::Error> for std::io::Error` on content-level
csv errors: the csv error is wrapped under `ErrorKind::Other`. -/
def io_error_from_csv (k : CsvErrKind) : IoError := IoError.wrappedCsv k

/-- Embedding of `TsvRecordIterator::next` (`src/src/io/parsers/tsv.rs`,
lines 84-95) applied to one pulled row:
`res.map_err(|e| GRangesError::IOError(e.into()))`. -/
def TsvRecordIterator.next {α : Type} (expected : Nat)
    (decodeRow : List String → Except String α) (row : List String) :
    Except GRangesError α :=
  match csv_read_row expected decodeRow row with
  | Except.ok v => Except.ok v
  | Except.error k => Except.error (GRangesError.IOError (io_error_from_csv k))

/-- Whether `needle` occurs at the start of `hay`. -/
def begins_with : List Char → List Char → Bool
  | [], _ => true
  | _ :: _, [] => false
  | a :: as, b :: bs => a == b && begins_with as bs

/-- Whether `needle` occurs contiguously anywhere inside `hay`. -/
def has_sub_seq (needle : List Char) : List Char → Bool
  | [] => needle.isEmpty
  | c :: cs => begins_with needle (c :: cs) || has_sub_seq needle cs

/-- Concrete record decoder for a four-column BED-like row whose fourth
column is an optional float with missing token ".": exercises the stream
embedding on concrete rows. -/
def bed4_decode_row (row : List String) : Except String (Option ℚ) :=
  match row.get? 3 with
  | some s => deserialize_option_generic ["."] f64_from_str s
  | none => Except.error "missing field"

/-- Decidable equality for Except values, used to evaluate concrete runs
of the fallible functions. -/
instance {ε α : Type} [DecidableEq ε] [DecidableEq α] :
    DecidableEq (Except ε α) := fun a b =>
  match a, b with
  | Except.ok x, Except.ok y =>
    if h : x = y then isTrue (by rw [h]) else isFalse (by simp [h])
  | Except.error x, Except.error y =>
    if h : x = y then isTrue (by rw [h]) else isFalse (by simp [h])
  | Except.ok _, Except.error _ => isFalse (by simp)
  | Except.error _, Except.ok _ => isFalse (by simp)

/-- Helper: on a source of at least two bytes, construction routes by the
gzip magic and never fails. -/
theorem new_cons_cons (b0 b1 : Nat) (rest : List Nat) :
    TsvRecordIterator.new (b0 :: b1 :: rest) =
      if b0 = 0x1f ∧ b1 = 0x8b then
        Except.ok (ByteStream.gzipped (b0 :: b1 :: rest))
      else
        Except.ok (ByteStream.plain (b0 :: b1 :: rest)) := by
  cases hb : (b0 == 0x1f && b1 == 0x8b) with
  | true =>
    have hp : b0 = 0x1f ∧ b1 = 0x8b := by simpa using hb
    simp [TsvRecordIterator.new, is_gzipped_file, hb, hp]
  | false =>
    have hp : ¬(b0 = 0x1f ∧ b1 = 0x8b) := by
      intro hc
      rw [hc.1, hc.2] at hb
      simp at hb
    simp [TsvRecordIterator.new, is_gzipped_file, hb, hp]

/-- C3: construction classifies the byte source as gzip exactly when its
first two bytes are 0x1f, 0x8b, routing it through decompression; any
other two-byte-or-longer source is read as-is; a source with fewer than
two bytes makes construction fail with the propagated I/O error rather
than a false classification. -/
theorem c3_gzip_routing :
    (∀ (b0 b1 : Nat) (rest : List Nat),
      (TsvRecordIterator.new (b0 :: b1 :: rest) =
          Except.ok (ByteStream.gzipped (b0 :: b1 :: rest)) ↔
        b0 = 0x1f ∧ b1 = 0x8b) ∧
      (¬(b0 = 0x1f ∧ b1 = 0x8b) →
        TsvRecordIterator.new (b0 :: b1 :: rest) =
          Except.ok (ByteStream.plain (b0 :: b1 :: rest)))) ∧
    (∀ bytes : List Nat, bytes.length < 2 →
      TsvRecordIterator.new bytes =
        Except.error (GRangesError.IOError IoError.unexpectedEof)) := by
  constructor
  · intro b0 b1 rest
    rw [new_cons_cons]
    by_cases hp : b0 = 0x1f ∧ b1 = 0x8b
    · simp [hp]
    · simp [hp]
  · intro bytes h
    rcases bytes with _ | ⟨b0, _ | ⟨b1, rest⟩⟩
    · rfl
    · rfl
    · exfalso
      simp at h
      omega

/-- Witness for C3 at a gzip source, a plain source and a one-byte
source. -/
theorem c3_gzip_routing_witness :
    TsvRecordIterator.new [0x1f, 0x8b, 7] =
      Except.ok (ByteStream.gzipped [0x1f, 0x8b, 7]) ∧
    TsvRecordIterator.new [0x41, 0x42, 7] =
      Except.ok (ByteStream.plain [0x41, 0x42, 7]) ∧
    TsvRecordIterator.new [0x1f] =
      Except.error (GRangesError.IOError IoError.unexpectedEof) :=
  ⟨(c3_gzip_routing.1 0x1f 0x8b [7]).1.mpr ⟨rfl, rfl⟩,
   (c3_gzip_routing.1 0x41 0x42 [7]).2 (by decide),
   c3_gzip_routing.2 [0x1f] (by decide)⟩

/-- C4 counterexample: decoding "abc" against the float target yields the
error "parsing error: invalid float literal"; the decoder wraps only the
parse failure's own message, and the float parse error does not name its
input, so the raw offending text "abc" appears nowhere in the error
content. -/
theorem c4_counterexample :
    deserialize_option_generic ["."] f64_from_str "abc" =
      Except.error "parsing error: invalid float literal" ∧
    has_sub_seq "abc".data "parsing error: invalid float literal".data = false := by
  constructor
  · decide
  · decide

/-- C4 (amended): for field text outside the missing set whose parse
fails with message e, the decoder returns the decode error "parsing
error: " ++ e — it wraps the original parse failure message; the raw
offending text is preserved only insofar as the element type's own
parse-error message contains it (for the float parser it does not). -/
theorem c4_decode_error_wraps {α : Type} (missing_chars : List String)
    (parse : String → Except String α) (s e : String)
    (hm : missing_chars.contains s = false)
    (hp : parse s = Except.error e) :
    deserialize_option_generic missing_chars parse s =
      Except.error ("parsing error: " ++ e) := by
  have hm' : ¬ s ∈ missing_chars := by simpa using hm
  simp [deserialize_option_generic, hm', hp]

/-- Witness for the amended C4 at the field text "abc" with the float
parser. -/
theorem c4_decode_error_wraps_witness :
    deserialize_option_generic ["."] f64_from_str "abc" =
      Except.error ("parsing error: " ++ "invalid float literal") :=
  c4_decode_error_wraps ["."] f64_from_str "abc" "invalid float literal"
    (by decide) (by decide)

/-- C5 counterexample: a three-column row against the four-column record
shape and a row whose fourth field fails to decode are both handed to the
caller as the same IOError class of GRangesError — the structural failure
is not a distinct error kind in the value the caller receives. -/
theorem c5_counterexample :
    TsvRecordIterator.next 4 bed4_decode_row ["chr1", "10", "20"] =
      Except.error (GRangesError.IOError
        (IoError.wrappedCsv (CsvErrKind.unequalLengths 4 3))) ∧
    TsvRecordIterator.next 4 bed4_decode_row ["chr1", "10", "20", "abc"] =
      Except.error (GRangesError.IOError
        (IoError.wrappedCsv
          (CsvErrKind.deserializeErr "parsing error: invalid float literal"))) ∧
    GRangesError.classOf
        (GRangesError.IOError
          (IoError.wrappedCsv (CsvErrKind.unequalLengths 4 3))) =
      GRangesError.classOf
        (GRangesError.IOError
          (IoError.wrappedCsv
            (CsvErrKind.deserializeErr "parsing error: invalid float literal"))) := by
  refine ⟨by decide, by decide, rfl⟩

/-- C5 (amended): on every pulled row, a column-count mismatch and a
per-field decode failure are both delivered in the single IOError class
of GRangesError, wrapping the csv-layer error; the two causes remain
distinguishable only by the wrapped csv error's kind — UnequalLengths
versus Deserialize, distinct constructors — not by the GRangesError kind
handed to the caller. -/
theorem c5_error_classes {α : Type} (expected : Nat)
    (decodeRow : List String → Except String α) (row : List String) :
    (row.length ≠ expected →
      TsvRecordIterator.next expected decodeRow row =
        Except.error (GRangesError.IOError
          (IoError.wrappedCsv
            (CsvErrKind.unequalLengths expected row.length)))) ∧
    (∀ m : String, row.length = expected → decodeRow row = Except.error m →
      TsvRecordIterator.next expected decodeRow row =
        Except.error (GRangesError.IOError
          (IoError.wrappedCsv (CsvErrKind.deserializeErr m)))) ∧
    (∀ (e g : Nat) (m : String),
      CsvErrKind.unequalLengths e g ≠ CsvErrKind.deserializeErr m) := by
  refine ⟨?_, ?_, fun e g m => by simp⟩
  · intro h
    have hb : (row.length == expected) = false := by simpa using h
    simp [TsvRecordIterator.next, csv_read_row, io_error_from_csv, hb]
  · intro m hl hd
    have hb : (row.length == expected) = true := by simpa using hl
    simp [TsvRecordIterator.next, csv_read_row, io_error_from_csv, hb, hd]

/-- Witness for the amended C5 at concrete mismatched and decode-failing
rows. -/
theorem c5_error_classes_witness :
    TsvRecordIterator.next 4 bed4_decode_row ["chr1", "10", "20"] =
      Except.error (GRangesError.IOError
        (IoError.wrappedCsv
          (CsvErrKind.unequalLengths 4 (["chr1", "10", "20"] : List String).length))) ∧
    TsvRecordIterator.next 4 bed4_decode_row ["chr1", "10", "20", "xy"] =
      Except.error (GRangesError.IOError
        (IoError.wrappedCsv
          (CsvErrKind.deserializeErr "parsing error: invalid float literal"))) :=
  ⟨(c5_error_classes 4 bed4_decode_row ["chr1", "10", "20"]).1 (by decide),
   (c5_error_classes 4 bed4_decode_row ["chr1", "10", "20", "xy"]).2.1
     "parsing error: invalid float literal" (by decide) (by decide)⟩

/-- C7: field text belonging to the missing-token set always decodes to
Absent, whatever the element type's parse function would make of it —
parsing is never consulted for such text. -/
theorem c7_missing_token_absent {α : Type} (missing_chars : List String)
    (parse : String → Except String α) (s : String)
    (h : missing_chars.contains s = true) :
    deserialize_option_generic missing_chars parse s = Except.ok none := by
  have h' : s ∈ missing_chars := by simpa using h
  simp [deserialize_option_generic, h']

/-- Witness for C7: the text "5" placed in the missing set decodes to
Absent even though it parses as the number 5. -/
theorem c7_missing_token_absent_witness :
    deserialize_option_generic ["5"] f64_from_str "5" = Except.ok none ∧
    f64_from_str "5" = Except.ok 5 :=
  ⟨c7_missing_token_absent ["5"] f64_from_str "5" (by decide), by
    show Except.ok ((1 : ℚ) * ((5 : Nat) : ℚ)) = Except.ok 5
    norm_num⟩

end GRangesV
